import Mathlib

/-!
Shallow embedding of the `icinga2` package of mc-meta/go-icinga2-client
(file `icinga2/icinga.go`), together with theorems verifying the
natural-language specification of its request/response reconciliation
layer, its live-client construction, and its mock client.

Modelling conventions:
* Go `error` values are `Option GoError`; `none` is the nil error.
  `GoError.transport` stands for an opaque pre-existing transport error,
  `GoError.errorf msg` for an error built by `fmt.Errorf` carrying the
  formatted message `msg`.
* A possibly-nil pointer to a `napping.Response` is `Option Response`;
  dereferencing a nil pointer is a `Fault`, so functions that may
  dereference return `Except Fault _`.
* JSON numbers decoded into Go `float64` are modelled as rationals:
  every finite `float64` is a rational and the comparison `>= 400.0`
  agrees with the rational comparison.
* The HTTP transport (the `napping` session) is an external collaborator;
  its behaviour is a `TransportOracle` mapping a request URL and payload
  to the decoded bodies, the response and the transport error.
-/

namespace Icinga2

/-- A Go `error` value as observed by this package: either an opaque
pre-existing transport-level error, or an error created by `fmt.Errorf`
carrying its formatted message. -/
inductive GoError where
  | transport (id : Nat)
  | errorf (msg : String)
deriving DecidableEq, Repr

/-- The part of `napping.Response` that `handleResults` reads:
`resp.HttpResponse().StatusCode` (numeric) and `resp.HttpResponse().Status`
(the status line text, e.g. "500 Internal Server Error"). -/
structure Response where
  statusCode : Nat
  status : String
deriving DecidableEq, Repr

/-- One element of the `Results.Results` slice (icinga.go lines 106-114):
`Code float64`, `Errors []string`, `Status string`, `Name string`,
`Type string`. -/
structure ResultItem where
  code : ℚ
  errors : List String
  status : String
  name : String
  type : String
deriving DecidableEq, Repr

/-- The `Results` struct: a wrapper around the `Results` slice. -/
structure Results where
  results : List ResultItem
deriving DecidableEq, Repr

/-- A Go runtime fault (panic), here only the nil-pointer dereference that
`resp.HttpResponse()` would trigger on a nil response. -/
inductive Fault where
  | nilDereference
deriving DecidableEq, Repr

/-- The string appended for one failing item (icinga.go lines 140 and 146):
`r.Status + " " + strings.Join(r.Errors, " ") + " "`. -/
def itemReport (r : ResultItem) : String :=
  r.status ++ " " ++ String.intercalate " " r.errors ++ " "

/-- One scanning loop of `handleResults` (lines 138-142 resp. 144-148):
fold over the items, appending `itemReport r` to the accumulator for every
item with `r.Code >= 400.0`. -/
def scanResults (acc : String) (rs : List ResultItem) : String :=
  rs.foldl (fun report r => if 400 ≤ r.code then report ++ itemReport r else report) acc

/-- `(*WebClient).handleResults` (icinga.go lines 131-160).
`typ` is the operation kind ("create"/"update"), `path` the target path,
`resp` the (possibly nil) transport response, `results` and `errmsg` the two
decoded bodies, `oerr` the pre-existing transport error. -/
def handleResults (typ path : String) (resp : Option Response)
    (results errmsg : Results) (oerr : Option GoError) :
    Except Fault (Option GoError) :=
  match oerr with
  | some e => .ok (some e)
  | none =>
    let resultReport := scanResults (scanResults "" results.results) errmsg.results
    match resp with
    | none => .error .nilDereference
    | some r =>
      if 400 ≤ r.statusCode then
        .ok (some (.errorf (typ ++ " " ++ path ++ " : " ++ r.status ++ " - " ++ resultReport)))
      else if resultReport ≠ "" then
        .ok (some (.errorf (typ ++ " " ++ path ++ " : " ++ resultReport ++ "\n")))
      else
        .ok none

/-- An abstract handle for an `x509.CertPool` (external collaborator,
`crypto/x509`; out of scope beyond identity). -/
structure CertPool where
  id : Nat
deriving DecidableEq, Repr

/-- The part of `tls.Config` that `New` sets. -/
structure TLSConfig where
  insecureSkipVerify : Bool
  rootCAs : Option CertPool
deriving DecidableEq, Repr

/-- The part of `http.Transport` that `New` sets. -/
structure HTTPTransport where
  tlsClientConfig : TLSConfig
  disableKeepAlives : Bool
deriving DecidableEq, Repr

/-- The part of `http.Client` that `New` sets. -/
structure HTTPClient where
  transport : HTTPTransport
deriving DecidableEq, Repr

/-- The part of `napping.Session` that `New` sets: `Log`, `Client`, and
`Userinfo` (built by `url.UserPassword(username, password)`, modelled as
the pair of the two strings). -/
structure Session where
  log : Bool
  client : HTTPClient
  userinfo : String × String
deriving DecidableEq, Repr

/-- The `WebClient` struct (icinga.go lines 38-48). The zero-valued
`napping` field of the input struct is modelled as `none`; `New` fills it. -/
structure WebClient where
  napping : Option Session := none
  URL : String
  Username : String
  Password : String
  Debug : Bool
  InsecureTLS : Bool
  DisableKeepAlives : Bool
  Zone : String
  RootCAs : Option CertPool
deriving DecidableEq, Repr

/-- Go `strings.TrimRight(s, cutset)`: remove trailing characters that are
members of `cutset`. -/
def goTrimRight (s cutset : String) : String :=
  String.mk ((s.data.reverse.dropWhile (fun c => cutset.data.contains c)).reverse)

/-- `New` (icinga.go lines 71-94). `sysCertPool` is the outcome of
`x509.SystemCertPool()` — `none` when retrieval fails (the Go code discards
the accompanying error with `rootCAs, _ = ...`). Returns the initialised
client and the returned error value. -/
def New (s : WebClient) (sysCertPool : Option CertPool) :
    WebClient × Option GoError :=
  let rootCAs := match s.RootCAs with
    | some p => some p
    | none => sysCertPool
  let transport : HTTPTransport :=
    { tlsClientConfig :=
        { insecureSkipVerify := s.InsecureTLS, rootCAs := rootCAs },
      disableKeepAlives := s.DisableKeepAlives }
  let client : HTTPClient := { transport := transport }
  let s1 := { s with
    napping := some
      { log := s.Debug, client := client,
        userinfo := (s.Username, s.Password) },
    URL := goTrimRight s.URL "/" }
  (s1, none)

/-- What one `napping.Put`/`napping.Post` call yields: the decoded normal
body (`results`), the decoded error-channel body (`errmsg`), the
(possibly nil) response pointer and the transport error. -/
structure CallReturn where
  resp : Option Response
  results : Results
  errmsg : Results
  err : Option GoError

/-- The I/O behaviour of the `napping` session (external collaborator):
what `Put` resp. `Post` return for a given request URL and payload of
type `α`. -/
structure TransportOracle (α : Type) where
  put : String → α → CallReturn
  post : String → α → CallReturn

/-- `(*WebClient).CreateObject` (icinga.go lines 116-122): PUT to
`s.URL + "/v1/objects" + path`, then reconcile with kind "create". -/
def CreateObject {α : Type} (s : WebClient) (t : TransportOracle α)
    (path : String) (create : α) : Except Fault (Option GoError) :=
  let r := t.put (s.URL ++ "/v1/objects" ++ path) create
  handleResults "create" path r.resp r.results r.errmsg r.err

/-- `(*WebClient).UpdateObject` (icinga.go lines 124-129): POST to
`s.URL + "/v1/objects" + path`, then reconcile with kind "update". -/
def UpdateObject {α : Type} (s : WebClient) (t : TransportOracle α)
    (path : String) (create : α) : Except Fault (Option GoError) :=
  let r := t.post (s.URL ++ "/v1/objects" ++ path) create
  handleResults "update" path r.resp r.results r.errmsg r.err

/-- A value of Go type `interface\x7b\x7d` stored in a `Vars` map.
Modelled from the spec: "a mapping of arbitrary named variables (string
keys, values of unconstrained type)". -/
inductive VarValue where
  | str (s : String)
  | num (q : ℚ)
  | boolean (b : Bool)
deriving DecidableEq, Repr

/-- The `Vars` map type (`map[string]interface\x7b\x7d`), as an
association list. -/
def Vars := List (String × VarValue)

/-- Modelled from the spec: the `Host` domain entity lives in a repository
file not under src/; per the spec it carries a stable identifying name and
a `Vars` mapping. Its internal fields do not affect any claim. -/
structure Host where
  name : String
  vars : Vars

/-- Modelled from the spec: the `HostGroup` domain entity (not under src/);
a stable identifying name and a `Vars` mapping. -/
structure HostGroup where
  name : String
  vars : Vars

/-- Modelled from the spec: the `Service` domain entity (not under src/);
a checkable entity with a name, variables, a check command and notes. -/
structure Service where
  name : String
  vars : Vars
  checkCommand : String
  notes : String
  notesURL : String

/-- Modelled from the spec: an `Action` submitted by `ProcessCheckResult`
(not under src/); its internal fields do not affect any claim. -/
structure Action where
  payload : String

/-- The `MockClient` struct (icinga.go lines 50-56): four mappings, each
modelled as an association list (Go `map` → key/value association; the
`sync.Mutex` guards concurrent access and has no sequential content). -/
structure MockClient where
  Hostgroups : List (String × HostGroup)
  Hosts : List (String × Host)
  Services : List (String × Service)
  Actions : List (String × List Action)

/-- `NewMockClient` (icinga.go lines 96-104): all four mappings are
created empty with `make`. -/
def NewMockClient : MockClient :=
  { Hostgroups := [], Hosts := [], Services := [], Actions := [] }

/-! ### Helper lemmas about the scanning loops -/

theorem append_eq_empty_iff (a b : String) : a ++ b = "" ↔ a = "" ∧ b = "" := by
  constructor
  · intro h
    have hd := congrArg String.data h
    simp [String.data_append] at hd
    exact ⟨String.ext hd.1, String.ext hd.2⟩
  · rintro ⟨rfl, rfl⟩
    rfl

theorem join_cons (a : String) (l : List String) :
    String.join (a :: l) = a ++ String.join l := by
  apply String.ext
  simp [String.data_append]

theorem scanResults_cons (acc : String) (r : ResultItem) (rs : List ResultItem) :
    scanResults acc (r :: rs) =
      scanResults (if 400 ≤ r.code then acc ++ itemReport r else acc) rs := rfl

theorem scanResults_acc (rs : List ResultItem) :
    ∀ acc, scanResults acc rs = acc ++ scanResults "" rs := by
  induction rs with
  | nil => intro acc; simp [scanResults]
  | cons r rs ih =>
    intro acc
    rw [scanResults_cons, scanResults_cons]
    by_cases h : 400 ≤ r.code
    · rw [if_pos h, if_pos h, ih (acc ++ itemReport r), ih ("" ++ itemReport r),
        String.empty_append, String.append_assoc]
    · rw [if_neg h, if_neg h, ih acc]

theorem scanResults_eq_join (rs : List ResultItem) :
    scanResults "" rs =
      String.join ((rs.filter (fun r => 400 ≤ r.code)).map itemReport) := by
  induction rs with
  | nil => rfl
  | cons r rs ih =>
    rw [scanResults_cons]
    by_cases h : 400 ≤ r.code
    · rw [if_pos h, scanResults_acc rs ("" ++ itemReport r), String.empty_append]
      simp only [List.filter_cons, h, decide_True, if_true, List.map_cons, join_cons, ih]
    · rw [if_neg h]
      simp [List.filter_cons, h, ih]

theorem itemReport_ne_empty (r : ResultItem) : itemReport r ≠ "" := by
  intro h
  have hl := congrArg String.length h
  simp only [itemReport, String.length_append] at hl
  have h1 : (" " : String).length = 1 := by decide
  have h0 : ("" : String).length = 0 := by decide
  omega

theorem scanResults_eq_empty_iff (rs : List ResultItem) :
    scanResults "" rs = "" ↔ ∀ r ∈ rs, r.code < 400 := by
  induction rs with
  | nil => simp [scanResults]
  | cons r rs ih =>
    rw [scanResults_cons]
    by_cases h : 400 ≤ r.code
    · rw [if_pos h, scanResults_acc rs ("" ++ itemReport r), String.empty_append]
      constructor
      · intro hc
        exact absurd ((append_eq_empty_iff _ _).mp hc).1 (itemReport_ne_empty r)
      · intro hall
        exact absurd h (not_le.mpr (hall r (List.mem_cons_self r rs)))
    · rw [if_neg h, ih]
      constructor
      · intro hc x hx
        rcases List.mem_cons.mp hx with h1 | h2
        · subst h1; exact not_le.mp h
        · exact hc x h2
      · intro hall x hx
        exact hall x (List.mem_cons_of_mem r hx)

theorem join_append (l1 l2 : List String) :
    String.join (l1 ++ l2) = String.join l1 ++ String.join l2 := by
  apply String.ext
  simp [String.data_append]

/-- General form of the success condition of `handleResults`, shared by
several theorems below. -/
theorem handleResults_ok_none_iff (typ path : String) (r : Response)
    (results errmsg : Results) :
    handleResults typ path (some r) results errmsg none = .ok none ↔
      ((∀ i ∈ results.results, i.code < 400) ∧
       (∀ i ∈ errmsg.results, i.code < 400) ∧
       r.statusCode < 400) := by
  simp only [handleResults]
  rw [scanResults_acc]
  by_cases h1 : 400 ≤ r.statusCode
  · rw [if_pos h1]
    constructor
    · intro h
      simp at h
    · rintro ⟨-, -, h3⟩
      omega
  · rw [if_neg h1]
    by_cases h2 : scanResults "" results.results ++ scanResults "" errmsg.results = ""
    · rw [if_neg (not_not_intro h2)]
      have hsplit := (append_eq_empty_iff _ _).mp h2
      constructor
      · intro _
        exact ⟨(scanResults_eq_empty_iff _).mp hsplit.1,
          (scanResults_eq_empty_iff _).mp hsplit.2, by omega⟩
      · intro _
        rfl
    · rw [if_pos h2]
      constructor
      · intro h
        simp at h
      · rintro ⟨ha, hb, -⟩
        exact absurd ((append_eq_empty_iff _ _).mpr
          ⟨(scanResults_eq_empty_iff _).mpr ha, (scanResults_eq_empty_iff _).mpr hb⟩) h2

/-- C1: with no pre-existing transport error, `handleResults` returns the
nil error (Success) iff no item of the "results" sequence has code ≥ 400,
no item of the "error-channel" sequence has code ≥ 400, and the
transport-level HTTP status code is below 400; any failing item or a
transport status ≥ 400 yields a non-nil error (Failure). -/
theorem handleResults_success_iff (typ path : String) (r : Response)
    (results errmsg : Results) :
    handleResults typ path (some r) results errmsg none = .ok none ↔
      ((∀ i ∈ results.results, i.code < 400) ∧
       (∀ i ∈ errmsg.results, i.code < 400) ∧
       r.statusCode < 400) :=
  handleResults_ok_none_iff typ path r results errmsg

/-- C2: for every operation kind, target path, response (even a nil one)
and decoded bodies, a non-nil pre-existing transport error is returned
exactly as it is, with no inspection of either result sequence and no
message composition. -/
theorem handleResults_transport_error_short_circuit (typ path : String)
    (resp : Option Response) (results errmsg : Results) (e : GoError) :
    handleResults typ path resp results errmsg (some e) = .ok (some e) := rfl

/-- C3: the accumulated message of `handleResults` is exactly the
concatenation, over the failing items (code ≥ 400) of the "results"
sequence followed by the failing items of the "error-channel" sequence in
item order, of `"<status> <errors joined by single spaces> "`; hence each
failing item's contribution occurs inside it, in that order. -/
theorem resultReport_construction (results errmsg : Results) :
    scanResults (scanResults "" results.results) errmsg.results =
      String.join
        (((results.results.filter (fun r => 400 ≤ r.code)) ++
          (errmsg.results.filter (fun r => 400 ≤ r.code))).map
            (fun r => r.status ++ " " ++ String.intercalate " " r.errors ++ " ")) ∧
    ∀ i, (i ∈ results.results ∨ i ∈ errmsg.results) → 400 ≤ i.code →
      List.IsInfix (i.status ++ " " ++ String.intercalate " " i.errors ++ " ").data
        (scanResults (scanResults "" results.results) errmsg.results).data := by
  have hrep : scanResults (scanResults "" results.results) errmsg.results =
      String.join
        (((results.results.filter (fun r => 400 ≤ r.code)) ++
          (errmsg.results.filter (fun r => 400 ≤ r.code))).map itemReport) := by
    rw [scanResults_acc, scanResults_eq_join, scanResults_eq_join, List.map_append,
      join_append]
  refine ⟨hrep, ?_⟩
  intro i hmem hcode
  rw [hrep, String.data_join]
  have hifilter : i ∈ results.results.filter (fun r => 400 ≤ r.code) ++
      errmsg.results.filter (fun r => 400 ≤ r.code) := by
    rcases hmem with h | h
    · exact List.mem_append_left _ (List.mem_filter.mpr ⟨h, by simpa using hcode⟩)
    · exact List.mem_append_right _ (List.mem_filter.mpr ⟨h, by simpa using hcode⟩)
  have : (itemReport i).data ∈
      ((results.results.filter (fun r => 400 ≤ r.code) ++
        errmsg.results.filter (fun r => 400 ≤ r.code)).map itemReport).map
          String.data :=
    List.mem_map_of_mem _ (List.mem_map_of_mem _ hifilter)
  exact List.infix_of_mem_flatten this

/-- Witness for C3 at the concrete failing item with status "error" and
errors ["bad name"]: the accumulated message is exactly its contribution,
which therefore occurs inside it. -/
theorem resultReport_construction_witness :
    scanResults
        (scanResults ""
          ({ results := [{ code := 500, errors := ["bad name"], status := "error", name := "", type := "" }] } : Results).results)
        ({ results := [] } : Results).results = "error bad name " ∧
    List.IsInfix
      ("error" ++ " " ++ String.intercalate " " ["bad name"] ++ " ").data
      (scanResults
        (scanResults ""
          ({ results := [{ code := 500, errors := ["bad name"], status := "error", name := "", type := "" }] } : Results).results)
        ({ results := [] } : Results).results).data := by
  have h := resultReport_construction
    { results := [{ code := 500, errors := ["bad name"], status := "error", name := "", type := "" }] }
    { results := [] }
  refine ⟨?_, h.2
    { code := 500, errors := ["bad name"], status := "error", name := "", type := "" }
    (Or.inl (List.mem_cons_self _ _)) (by decide)⟩
  rw [h.1]
  decide

/-- C9: on the branch where a pre-existing transport error is present, the
reconciler returns before any access to the (possibly nil) response, so a
nil response never faults there; with no transport error a nil response
does fault, showing the model distinguishes the two. -/
theorem handleResults_nil_response_safe (typ path : String)
    (results errmsg : Results) (e : GoError) :
    handleResults typ path none results errmsg (some e) = .ok (some e) ∧
    handleResults typ path none results errmsg none = .error .nilDereference :=
  ⟨rfl, rfl⟩

/-- C4: with no pre-existing transport error and transport status ≥ 400,
the returned failure message is exactly
`"<kind> <target> : <transportStatusText> - <accumulated>"`, even when the
accumulated per-item message is empty. -/
theorem handleResults_transport_status_message (typ path : String)
    (r : Response) (results errmsg : Results) (h : 400 ≤ r.statusCode) :
    handleResults typ path (some r) results errmsg none =
      .ok (some (.errorf (typ ++ " " ++ path ++ " : " ++ r.status ++ " - " ++
        scanResults (scanResults "" results.results) errmsg.results))) := by
  simp only [handleResults]
  rw [if_pos h]

/-- Witness for C4, the concrete scenario of the claim: empty results,
transport status 500 with status text "500 Internal Server Error", kind
"create", target "/hosts/x" yield the message
"create /hosts/x : 500 Internal Server Error - ". -/
theorem handleResults_transport_status_message_witness :
    handleResults "create" "/hosts/x"
        (some { statusCode := 500, status := "500 Internal Server Error" })
        { results := [] } { results := [] } none =
      .ok (some (.errorf "create /hosts/x : 500 Internal Server Error - ")) := by
  rw [handleResults_transport_status_message "create" "/hosts/x"
    { statusCode := 500, status := "500 Internal Server Error" }
    { results := [] } { results := [] } (by decide)]
  rfl

/-- C5 counterexample: on the claim's own concrete scenario — results
[{code 200}, {code 500, status "error", errors ["bad name"]}], transport
status 200, kind "create", target "/hosts/x" — the code produces the
message "create /hosts/x : error bad name \n" with a trailing newline,
not the claimed "create /hosts/x : error bad name ". -/
theorem handleResults_item_failure_message_counterexample :
    handleResults "create" "/hosts/x"
        (some { statusCode := 200, status := "200 OK" })
        { results := [{ code := 200, errors := [], status := "", name := "", type := "" },
                      { code := 500, errors := ["bad name"], status := "error", name := "", type := "" }] }
        { results := [] } none =
      .ok (some (.errorf "create /hosts/x : error bad name \n")) ∧
    "create /hosts/x : error bad name \n" ≠ "create /hosts/x : error bad name " := by
  constructor
  · rfl
  · decide

/-- C5 amended: with no pre-existing transport error, transport status
< 400 and a non-empty accumulated per-item message, the returned failure
message is exactly `"<kind> <target> : <accumulated>\n"` — the claimed
format plus a trailing newline (the Go format string is
"%s %s : %s\n"). -/
theorem handleResults_item_failure_message (typ path : String)
    (r : Response) (results errmsg : Results) (h1 : r.statusCode < 400)
    (h2 : scanResults (scanResults "" results.results) errmsg.results ≠ "") :
    handleResults typ path (some r) results errmsg none =
      .ok (some (.errorf (typ ++ " " ++ path ++ " : " ++
        scanResults (scanResults "" results.results) errmsg.results ++ "\n"))) := by
  simp only [handleResults]
  rw [if_neg (by omega), if_pos h2]

/-- Witness for the amended C5, at the claim's concrete scenario: the
message is "create /hosts/x : error bad name \n". -/
theorem handleResults_item_failure_message_witness :
    handleResults "create" "/hosts/x"
        (some { statusCode := 200, status := "200 OK" })
        { results := [{ code := 200, errors := [], status := "", name := "", type := "" },
                      { code := 500, errors := ["bad name"], status := "error", name := "", type := "" }] }
        { results := [] } none =
      .ok (some (.errorf "create /hosts/x : error bad name \n")) := by
  rw [handleResults_item_failure_message "create" "/hosts/x"
    { statusCode := 200, status := "200 OK" }
    { results := [{ code := 200, errors := [], status := "", name := "", type := "" },
                  { code := 500, errors := ["bad name"], status := "error", name := "", type := "" }] }
    { results := [] } (by decide) (by decide)]
  rfl

/-- C10: a result item with code ≥ 400 but empty status text and empty
error list contributes exactly two space characters to the accumulated
message, and its presence in either sequence still forces a non-nil error
(Failure) — `handleResults` never returns the nil error then, whatever the
transport status. -/
theorem handleResults_empty_failing_item (typ path : String) (r : Response)
    (results errmsg : Results) (i : ResultItem)
    (hmem : i ∈ results.results ∨ i ∈ errmsg.results)
    (hcode : 400 ≤ i.code) (hstatus : i.status = "") (herrors : i.errors = []) :
    itemReport i = "  " ∧
    handleResults typ path (some r) results errmsg none ≠ .ok none := by
  constructor
  · rw [itemReport, hstatus, herrors]
    decide
  · intro hsucc
    have hall := (handleResults_ok_none_iff typ path r results errmsg).mp hsucc
    rcases hmem with h | h
    · exact absurd hcode (not_le.mpr (hall.1 i h))
    · exact absurd hcode (not_le.mpr (hall.2.1 i h))

/-- Witness for C10: a single item with code 400, empty status and empty
errors, transport status 200 — its report is two spaces and the verdict is
not Success. -/
theorem handleResults_empty_failing_item_witness :
    itemReport { code := 400, errors := [], status := "", name := "", type := "" } = "  " ∧
    handleResults "create" "/hosts/x" (some { statusCode := 200, status := "200 OK" })
        { results := [{ code := 400, errors := [], status := "", name := "", type := "" }] }
        { results := [] } none ≠ .ok none :=
  handleResults_empty_failing_item "create" "/hosts/x"
    { statusCode := 200, status := "200 OK" }
    { results := [{ code := 400, errors := [], status := "", name := "", type := "" }] }
    { results := [] }
    { code := 400, errors := [], status := "", name := "", type := "" }
    (Or.inl (List.mem_cons_self _ _)) (by decide) rfl rfl

/-- C6: `New` performs no validation of its inputs — every field of the
passed configuration is kept as-is — and it in fact always returns the nil
error (the `x509.SystemCertPool` failure is discarded), so a non-nil error
is returned only under the claimed condition; when system trust-root
retrieval fails and no custom trust-root set was supplied, the session's
TLS configuration is built with the trust root unset. -/
theorem New_accepts_inputs (s : WebClient) (sysCertPool : Option CertPool) :
    (New s sysCertPool).2 = none ∧
    (New s sysCertPool).1.Username = s.Username ∧
    (New s sysCertPool).1.Password = s.Password ∧
    (New s sysCertPool).1.Debug = s.Debug ∧
    (New s sysCertPool).1.InsecureTLS = s.InsecureTLS ∧
    (New s sysCertPool).1.DisableKeepAlives = s.DisableKeepAlives ∧
    (New s sysCertPool).1.Zone = s.Zone ∧
    (New s sysCertPool).1.RootCAs = s.RootCAs ∧
    (s.RootCAs = none → sysCertPool = none →
      (New s sysCertPool).1.napping = some
        { log := s.Debug,
          client := { transport :=
            { tlsClientConfig :=
                { insecureSkipVerify := s.InsecureTLS, rootCAs := none },
              disableKeepAlives := s.DisableKeepAlives } },
          userinfo := (s.Username, s.Password) }) := by
  refine ⟨rfl, rfl, rfl, rfl, rfl, rfl, rfl, rfl, ?_⟩
  intro h1 h2
  simp [New, h1, h2]

/-- Witness for C6 at a concrete configuration with no custom trust roots
and a failed system trust-root retrieval. -/
theorem New_accepts_inputs_witness :
    (New { URL := "https://icinga.example/", Username := "root",
           Password := "secret", Debug := false, InsecureTLS := false,
           DisableKeepAlives := true, Zone := "z1", RootCAs := none }
      none).2 = none ∧
    (New { URL := "https://icinga.example/", Username := "root",
           Password := "secret", Debug := false, InsecureTLS := false,
           DisableKeepAlives := true, Zone := "z1", RootCAs := none }
      none).1.napping = some
        { log := false,
          client := { transport :=
            { tlsClientConfig :=
                { insecureSkipVerify := false, rootCAs := none },
              disableKeepAlives := true } },
          userinfo := ("root", "secret") } := by
  have h := New_accepts_inputs
    { URL := "https://icinga.example/", Username := "root",
      Password := "secret", Debug := false, InsecureTLS := false,
      DisableKeepAlives := true, Zone := "z1", RootCAs := none } none
  exact ⟨h.1, h.2.2.2.2.2.2.2.2 rfl rfl⟩

/-- C7: for a client built by `New` from base URL `u`, `CreateObject`
issues its write to `trimRight(u, "/") ++ "/v1/objects" ++ path` and
reconciles the returned bodies with kind "create"; `UpdateObject` posts to
the same URL shape and reconciles with kind "update"; and the trimming
indeed strips a trailing '/' character. -/
theorem CreateObject_UpdateObject_request_shape {α : Type} (s : WebClient)
    (sysCertPool : Option CertPool) (t : TransportOracle α) (path : String)
    (x : α) :
    CreateObject ((New s sysCertPool).1) t path x =
      handleResults "create" path
        (t.put (goTrimRight s.URL "/" ++ "/v1/objects" ++ path) x).resp
        (t.put (goTrimRight s.URL "/" ++ "/v1/objects" ++ path) x).results
        (t.put (goTrimRight s.URL "/" ++ "/v1/objects" ++ path) x).errmsg
        (t.put (goTrimRight s.URL "/" ++ "/v1/objects" ++ path) x).err ∧
    UpdateObject ((New s sysCertPool).1) t path x =
      handleResults "update" path
        (t.post (goTrimRight s.URL "/" ++ "/v1/objects" ++ path) x).resp
        (t.post (goTrimRight s.URL "/" ++ "/v1/objects" ++ path) x).results
        (t.post (goTrimRight s.URL "/" ++ "/v1/objects" ++ path) x).errmsg
        (t.post (goTrimRight s.URL "/" ++ "/v1/objects" ++ path) x).err ∧
    goTrimRight (s.URL ++ "/") "/" = goTrimRight s.URL "/" := by
  refine ⟨rfl, rfl, ?_⟩
  have hdata : (s.URL ++ "/").data = s.URL.data ++ ['/'] := by
    rw [String.data_append]
  unfold goTrimRight
  rw [hdata, List.reverse_append]
  simp [List.dropWhile]

/-- C8: `NewMockClient` returns a mock client whose four mappings — host
groups, hosts, services and the per-service action log — are all empty:
every lookup in any of them fails. -/
theorem NewMockClient_empty (k : String) :
    NewMockClient.Hostgroups.lookup k = none ∧
    NewMockClient.Hosts.lookup k = none ∧
    NewMockClient.Services.lookup k = none ∧
    NewMockClient.Actions.lookup k = none :=
  ⟨rfl, rfl, rfl, rfl⟩

end Icinga2
